import Mathlib

/-!
Shallow embedding of the to-do list core (`src/todo.py`): the `Task` entity,
the `TodoList` store, its JSON-backed persistence, and its filtering/sorting
logic.  Python's `datetime.now().isoformat()` is modelled by an explicit
`now : String` argument; Python exceptions that escape a function are
modelled by `Option`/`none` results; the JSON backing file is modelled by
the `BackingContent` type.  Python's `list.sort(key=...)` is a stable sort
by the key; it is modelled by the stable `List.insertionSort` over the
non-strict total preorder induced by the key.
-/

namespace Todo

/-- In-memory task, mirroring the attributes set by `Task.__init__` in
`src/todo.py` (`id` is `None` until the store assigns it, so it is an
`Option Int`; `due_date` and `completed_at` are optional strings). -/
structure Task where
  id : Option Int
  title : String
  description : String
  category : String
  priority : String
  due_date : Option String
  completed : Bool
  created_at : String
  completed_at : Option String
deriving Repr, DecidableEq

/-- `Task.__init__`: stores every argument verbatim, sets `completed` to
false, `completed_at` to `None`, `created_at` to the current time and
leaves `id` unassigned. -/
def Task.make (title description category priority : String)
    (due_date : Option String) (now : String) : Task :=
  { id := none, title := title, description := description,
    category := category, priority := priority, due_date := due_date,
    completed := false, created_at := now, completed_at := none }

/-- `Task.mark_complete`: sets `completed` and stamps `completed_at`. -/
def Task.mark_complete (t : Task) (now : String) : Task :=
  { t with completed := true, completed_at := some now }

/-- `Task.mark_incomplete`: clears `completed` and `completed_at`. -/
def Task.mark_incomplete (t : Task) : Task :=
  { t with completed := false, completed_at := none }

/-- A stored task record (one element of the `"tasks"` array in the JSON
file).  The outer `Option` of each field is key presence in the dictionary;
for fields whose value may be JSON `null` (`id`, `due_date`,
`completed_at`) the inner `Option` is the value itself. -/
structure TaskRecord where
  id : Option (Option Int)
  title : Option String
  description : Option String
  category : Option String
  priority : Option String
  due_date : Option (Option String)
  completed : Option Bool
  created_at : Option String
  completed_at : Option (Option String)
deriving Repr, DecidableEq

/-- `Task.to_dict`: emits all nine keys, with the field values as they
are (absent optional values become JSON `null`, i.e. a present key whose
inner value is `none`). -/
def Task.to_dict (t : Task) : TaskRecord :=
  { id := some t.id, title := some t.title, description := some t.description,
    category := some t.category, priority := some t.priority,
    due_date := some t.due_date, completed := some t.completed,
    created_at := some t.created_at, completed_at := some t.completed_at }

/-- `Task.from_dict`: `data['title']` raises `KeyError` when the key is
absent (modelled by `none`); every other field is read with `dict.get`
and its default (`''`, `'General'`, `'Medium'`, `None`, `False`, current
time, `None`).  `dict.get` with no default returns `None` both for an
absent key and for a `null` value, hence `Option.getD _ none`. -/
def Task.from_dict (data : TaskRecord) (now : String) : Option Task :=
  match data.title with
  | none => none
  | some title => some
      { id := data.id.getD none,
        title := title,
        description := data.description.getD "",
        category := data.category.getD "General",
        priority := data.priority.getD "Medium",
        due_date := data.due_date.getD none,
        completed := data.completed.getD false,
        created_at := data.created_at.getD now,
        completed_at := data.completed_at.getD none }

/-- In-memory state of `TodoList`: the ordered task list and the id
counter.  The fixed `data_file` path is not part of the state; persistence
is modelled explicitly through `BackingContent`. -/
structure TodoList where
  tasks : List Task
  next_id : Int
deriving Repr, DecidableEq

/-- Content of the backing file as `load_tasks` distinguishes it:
the file may be missing, may fail `json.load` (raising
`json.JSONDecodeError`, which is caught), or may parse to an object with
optional `"tasks"` and `"next_id"` keys. -/
inductive BackingContent where
  | missing : BackingContent
  | unparseable : BackingContent
  | doc : Option (List TaskRecord) → Option Int → BackingContent
deriving Repr, DecidableEq

/-- `TodoList.__init__` plus `load_tasks`: starts from `tasks=[]`,
`next_id=1`; a missing file leaves that state, a `json.JSONDecodeError`
is caught and resets to it, and a parsed document is decoded with
`data.get('tasks', [])` and `data.get('next_id', 1)`.  A `KeyError`
raised by `Task.from_dict` on an individual record is *not* in the
`except` clause of `load_tasks`, so it escapes the constructor
(result `none`). -/
def TodoList.load (c : BackingContent) (now : String) : Option TodoList :=
  match c with
  | .missing => some { tasks := [], next_id := 1 }
  | .unparseable => some { tasks := [], next_id := 1 }
  | .doc tasks next_id =>
      match (tasks.getD []).mapM (fun r => Task.from_dict r now) with
      | none => none
      | some ts => some { tasks := ts, next_id := next_id.getD 1 }

/-- `TodoList.save_tasks`: full rewrite of the backing file with the
serialized tasks and the current counter. -/
def TodoList.save (st : TodoList) : BackingContent :=
  .doc (some (st.tasks.map Task.to_dict)) (some st.next_id)

/-- `TodoList.add_task`: builds the task, assigns `id = next_id`,
increments the counter, appends, saves, and returns the new task. -/
def TodoList.add_task (st : TodoList) (title description category priority : String)
    (due_date : Option String) (now : String) : TodoList × Task :=
  let task : Task :=
    { Task.make title description category priority due_date now with
        id := some st.next_id }
  ({ tasks := st.tasks ++ [task], next_id := st.next_id + 1 }, task)

/-- The loop body of `TodoList.remove_task`: delete the first task whose
`id` matches, or report that none matched. -/
def TodoList.remove_aux (task_id : Int) : List Task → Option (List Task)
  | [] => none
  | t :: ts =>
      if t.id = some task_id then some ts
      else
        match TodoList.remove_aux task_id ts with
        | none => none
        | some ts2 => some (t :: ts2)

/-- `TodoList.remove_task`: removes the first task with the given id and
returns whether one was found (saving when it was). -/
def TodoList.remove_task (st : TodoList) (task_id : Int) : TodoList × Bool :=
  match TodoList.remove_aux task_id st.tasks with
  | none => (st, false)
  | some ts => ({ st with tasks := ts }, true)

/-- `TodoList.get_task`: first task with the given id, if any. -/
def TodoList.get_task (st : TodoList) (task_id : Int) : Option Task :=
  st.tasks.find? (fun t => t.id == some task_id)

/-- Replace the first task with the given id by its image under `f`,
reporting whether one was found.  This models `get_task` returning a
reference into `self.tasks` that the store-level `mark_complete` /
`mark_incomplete` then mutate in place. -/
def TodoList.updateFirst (task_id : Int) (f : Task → Task) :
    List Task → List Task × Bool
  | [] => ([], false)
  | t :: ts =>
      if t.id = some task_id then (f t :: ts, true)
      else
        let r := TodoList.updateFirst task_id f ts
        (t :: r.1, r.2)

/-- `TodoList.mark_complete`: marks the looked-up task complete and saves
when it exists. -/
def TodoList.mark_complete (st : TodoList) (task_id : Int) (now : String) :
    TodoList × Bool :=
  let r := TodoList.updateFirst task_id (fun t => t.mark_complete now) st.tasks
  ({ st with tasks := r.1 }, r.2)

/-- `TodoList.mark_incomplete`: marks the looked-up task incomplete and
saves when it exists. -/
def TodoList.mark_incomplete (st : TodoList) (task_id : Int) :
    TodoList × Bool :=
  let r := TodoList.updateFirst task_id (fun t => t.mark_incomplete) st.tasks
  ({ st with tasks := r.1 }, r.2)

/-- `priority_order = {"High": 0, "Medium": 1, "Low": 2}` with
`.get(p, 1)`: any unrecognized priority string ranks as `Medium`. -/
def priority_rank (p : String) : Nat :=
  if p = "High" then 0 else if p = "Medium" then 1 else if p = "Low" then 2 else 1

/-- Numeric view of Python's `False < True` in tuple comparison. -/
def bool_rank (b : Bool) : Nat := if b then 1 else 0

/-- The sort key `(t.completed, priority_order.get(t.priority, 1),
t.created_at)` of `list_tasks`. -/
def task_key (t : Task) : Nat × Nat × String :=
  (bool_rank t.completed, priority_rank t.priority, t.created_at)

/-- Python's lexicographic (non-strict) comparison of two key triples. -/
def triple_le (x y : Nat × Nat × String) : Bool :=
  if x.1 < y.1 then true
  else if y.1 < x.1 then false
  else if x.2.1 < y.2.1 then true
  else if y.2.1 < x.2.1 then false
  else decide (x.2.2 ≤ y.2.2)

/-- Non-strict "key of `a` not after key of `b`" order that `list_tasks`
sorts by. -/
def key_le (a b : Task) : Bool := triple_le (task_key a) (task_key b)

/-- Truthiness of the `category` argument in `if category:`: `None` and
the empty string are falsy. -/
def category_truthy : Option String → Bool
  | none => false
  | some c => !c.isEmpty

/-- `TodoList.list_tasks`.  `filtered_tasks` starts as `self.tasks`
itself; each active filter rebinds it to a fresh list; `.sort` then
mutates whichever list `filtered_tasks` is.  So when `show_completed` is
true and `category` is falsy the store's own list is sorted in place
(first component), otherwise the store is untouched; the returned list
(second component) is the sorted filtered list in every case. -/
def TodoList.list_tasks (st : TodoList) (show_completed : Bool)
    (category : Option String) : TodoList × List Task :=
  let f1 := if show_completed then st.tasks else st.tasks.filter (fun t => !t.completed)
  let f2 := match category with
    | some c => if c.isEmpty then f1 else f1.filter (fun t => t.category.toLower == c.toLower)
    | none => f1
  let sorted := List.insertionSort (fun a b => key_le a b = true) f2
  if show_completed && !(category_truthy category) then
    ({ st with tasks := sorted }, sorted)
  else
    (st, sorted)

/-- The sequence the spec says `listTasks` returns: first drop completed
tasks when `show_completed` is false, then (when a category is given, i.e.
truthy) keep only tasks whose category matches case-insensitively, and
finally stable-sort ascending by the composite key (completion status,
priority rank, `created_at`). -/
def spec_list_view (tasks : List Task) (show_completed : Bool)
    (category : Option String) : List Task :=
  let step1 := if show_completed then tasks else tasks.filter (fun t => !t.completed)
  let step2 := match category with
    | some c => if c.isEmpty then step1 else step1.filter (fun t => t.category.toLower == c.toLower)
    | none => step1
  List.insertionSort (fun a b => key_le a b = true) step2

/-- One mutating or querying operation on a `TodoList` instance. -/
inductive Op where
  | add : String → String → String → String → Option String → String → Op
  | remove : Int → Op
  | markC : Int → String → Op
  | markI : Int → Op
  | listOp : Bool → Option String → Op

/-- The store state an operation leaves behind. -/
def TodoList.step (st : TodoList) : Op → TodoList
  | .add title desc cat prio due now => (st.add_task title desc cat prio due now).1
  | .remove i => (st.remove_task i).1
  | .markC i now => (st.mark_complete i now).1
  | .markI i => (st.mark_incomplete i).1
  | .listOp sc cat => (st.list_tasks sc cat).1

/-- Run a sequence of operations from a starting state. -/
def TodoList.run (st : TodoList) : List Op → TodoList
  | [] => st
  | op :: ops => (st.step op).run ops

/-- The ids `add_task` hands out along a sequence of operations (each
`add` returns the task whose id is the counter at that moment). -/
def issued_ids : TodoList → List Op → List Int
  | _, [] => []
  | st, Op.add a b c d e f :: ops =>
      st.next_id :: issued_ids (st.step (Op.add a b c d e f)) ops
  | st, op :: ops => issued_ids (st.step op) ops

/-- The documented completion invariant: `completed_at` is non-null
exactly when `completed` is true. -/
def completion_invariant (t : Task) : Prop :=
  t.completed_at ≠ none ↔ t.completed = true

/-- A store with no tasks and the counter at its initial value. -/
def empty_store : TodoList := { tasks := [], next_id := 1 }

/-- A stored record with every key absent; in particular `title` is
missing, so `Task.from_dict` raises `KeyError` on it. -/
def blank_record : TaskRecord :=
  { id := none, title := none, description := none, category := none,
    priority := none, due_date := none, completed := none,
    created_at := none, completed_at := none }

/-- A record asserting completion without a `completed_at` key. -/
def c4_record : TaskRecord := { blank_record with title := some "x", completed := some true }

/-- The task `Task.from_dict` decodes `c4_record` to (at time `"t0"`). -/
def c4_task : Task :=
  { id := none, title := "x", description := "", category := "General",
    priority := "Medium", due_date := none, completed := true,
    created_at := "t0", completed_at := none }

/-- A record for a task with id 1 (used for documents lacking `next_id`). -/
def c10_record : TaskRecord := { blank_record with title := some "a", id := some (some 1) }

/-- The store loaded from a document holding only `c10_record`. -/
def c10_store : TodoList :=
  { tasks := [{ id := some 1, title := "a", description := "",
                category := "General", priority := "Medium", due_date := none,
                completed := false, created_at := "t0", completed_at := none }],
    next_id := 1 }

/-- A completed task that precedes an incomplete one in raw store order. -/
def c6_task_done : Task :=
  { id := some 1, title := "a", description := "", category := "General",
    priority := "Medium", due_date := none, completed := true,
    created_at := "t1", completed_at := some "t1" }

/-- An incomplete task created after `c6_task_done`. -/
def c6_task_open : Task :=
  { id := some 2, title := "b", description := "", category := "General",
    priority := "Medium", due_date := none, completed := false,
    created_at := "t2", completed_at := none }

/-- A store whose raw order is not the sorted order. -/
def c6_store : TodoList := { tasks := [c6_task_done, c6_task_open], next_id := 3 }

/-- Two distinct tasks sharing id 1 (loadable from a crafted document). -/
def c8_dup_a : Task := { c6_task_open with id := some 1, title := "a", created_at := "t1" }

/-- Second task with the duplicated id 1. -/
def c8_dup_b : Task := { c6_task_open with id := some 1, title := "b" }

/-- A store holding two tasks with the same id. -/
def c8_store : TodoList := { tasks := [c8_dup_a, c8_dup_b], next_id := 2 }

/-- A backing document that loads to `c8_store`. -/
def c8_doc : BackingContent :=
  .doc (some [Task.to_dict c8_dup_a, Task.to_dict c8_dup_b]) (some 2)

/-- A store with two tasks carrying distinct ids. -/
def c8_good_store : TodoList :=
  { tasks := [{ c6_task_open with id := some 1, title := "a", created_at := "t1" },
              c6_task_open], next_id := 3 }


theorem triple_le_iff (x y : Nat × Nat × String) :
    triple_le x y = true ↔
      x.1 < y.1 ∨ (x.1 = y.1 ∧ (x.2.1 < y.2.1 ∨ (x.2.1 = y.2.1 ∧ x.2.2 ≤ y.2.2))) := by
  rcases x with ⟨a1, a2, a3⟩
  rcases y with ⟨b1, b2, b3⟩
  unfold triple_le
  dsimp only
  split_ifs with h1 h2 h3 h4
  · simp [h1]
  · simp only [Bool.false_eq_true, false_iff]
    rintro (h | ⟨h, -⟩) <;> omega
  · simp only [true_iff]
    exact Or.inr ⟨by omega, Or.inl h3⟩
  · simp only [Bool.false_eq_true, false_iff]
    rintro (h | ⟨h, h5 | ⟨h5, -⟩⟩) <;> omega
  · have e1 : a1 = b1 := by omega
    have e2 : a2 = b2 := by omega
    subst e1
    subst e2
    simp

theorem key_le_total (a b : Task) : key_le a b = true ∨ key_le b a = true := by
  unfold key_le
  rw [triple_le_iff, triple_le_iff]
  rcases Nat.lt_trichotomy (task_key a).1 (task_key b).1 with h | h | h
  · exact Or.inl (Or.inl h)
  · rcases Nat.lt_trichotomy (task_key a).2.1 (task_key b).2.1 with h2 | h2 | h2
    · exact Or.inl (Or.inr ⟨h, Or.inl h2⟩)
    · rcases le_total (task_key a).2.2 (task_key b).2.2 with h3 | h3
      · exact Or.inl (Or.inr ⟨h, Or.inr ⟨h2, h3⟩⟩)
      · exact Or.inr (Or.inr ⟨h.symm, Or.inr ⟨h2.symm, h3⟩⟩)
    · exact Or.inr (Or.inr ⟨h.symm, Or.inl h2⟩)
  · exact Or.inr (Or.inl h)

theorem key_le_trans (a b c : Task) (hab : key_le a b = true) (hbc : key_le b c = true) :
    key_le a c = true := by
  unfold key_le at *
  rw [triple_le_iff] at *
  rcases hab with h | ⟨h, h2⟩ <;> rcases hbc with g | ⟨g, g2⟩
  · exact Or.inl (h.trans g)
  · exact Or.inl (g ▸ h)
  · exact Or.inl (h ▸ g)
  · refine Or.inr ⟨h.trans g, ?_⟩
    rcases h2 with h2 | ⟨h2, h3⟩ <;> rcases g2 with g2 | ⟨g2, g3⟩
    · exact Or.inl (h2.trans g2)
    · exact Or.inl (g2 ▸ h2)
    · exact Or.inl (h2 ▸ g2)
    · exact Or.inr ⟨h2.trans g2, h3.trans g3⟩

instance : IsTotal Task (fun a b => key_le a b = true) := ⟨key_le_total⟩

instance : IsTrans Task (fun a b => key_le a b = true) := ⟨key_le_trans⟩

theorem key_le_consequences {a b : Task} (h : key_le a b = true) :
    (a.completed = true → b.completed = true) ∧
    (a.completed = b.completed → b.priority = "High" →
      a.priority ≠ "Medium" ∧ a.priority ≠ "Low") := by
  rw [key_le, triple_le_iff] at h
  unfold task_key bool_rank at h
  constructor
  · intro hac
    cases hbc : b.completed
    · rw [hac, hbc] at h
      simp at h
    · rfl
  · intro hc hbp
    rw [hc] at h
    simp only [lt_irrefl, false_or, true_and] at h
    rw [hbp] at h
    constructor <;> intro hap <;> rw [hap] at h <;>
      simp [priority_rank] at h

theorem sorted_insertion_view (l : List Task) :
    (List.insertionSort (fun a b => key_le a b = true) l).Pairwise (fun a b =>
      (a.completed = true → b.completed = true) ∧
      (a.completed = b.completed → b.priority = "High" →
        a.priority ≠ "Medium" ∧ a.priority ≠ "Low")) :=
  (List.sorted_insertionSort _ l).imp (fun h => key_le_consequences h)

/-- Claim C1: for every store state and arguments, `list_tasks` returns
exactly the spec's filter-then-stable-sort view, and in that returned
sequence a completed task never precedes an incomplete one, and within
equal completion status a High-priority task never follows a Medium- or
Low-priority one. -/
theorem C1_list_tasks_filter_sort (st : TodoList) (sc : Bool) (cat : Option String) :
    (st.list_tasks sc cat).2 = spec_list_view st.tasks sc cat ∧
    (st.list_tasks sc cat).2.Pairwise (fun a b =>
      (a.completed = true → b.completed = true) ∧
      (a.completed = b.completed → b.priority = "High" →
        a.priority ≠ "Medium" ∧ a.priority ≠ "Low")) := by
  have heq : (st.list_tasks sc cat).2 = spec_list_view st.tasks sc cat := by
    unfold TodoList.list_tasks spec_list_view
    dsimp only
    split <;> rfl
  refine ⟨heq, ?_⟩
  rw [heq]
  unfold spec_list_view
  exact sorted_insertion_view _

/-- Claim C2: deserializing the record produced by serializing any task
reproduces the task exactly, in all nine fields, including tasks whose
optional fields are absent. -/
theorem C2_serialize_round_trip (t : Task) (now : String) :
    Task.from_dict (Task.to_dict t) now = some t := rfl

/-- Claim C9: `mark_complete` followed by `mark_incomplete` always leaves
`completed` false and `completed_at` absent, whatever the prior state,
and `mark_incomplete` is idempotent. -/
theorem C9_mark_then_unmark (t : Task) (now : String) :
    ((t.mark_complete now).mark_incomplete).completed = false ∧
    ((t.mark_complete now).mark_incomplete).completed_at = none ∧
    (t.mark_incomplete).mark_incomplete = t.mark_incomplete :=
  ⟨rfl, rfl, rfl⟩



theorem step_next_id_mono (st : TodoList) (op : Op) :
    st.next_id ≤ (st.step op).next_id := by
  cases op with
  | add a b c d e f =>
    show st.next_id ≤ st.next_id + 1
    omega
  | remove i =>
    unfold TodoList.step TodoList.remove_task
    dsimp only
    rcases hr : TodoList.remove_aux i st.tasks with _ | ts <;> exact le_refl _
  | markC i now => exact le_refl _
  | markI i => exact le_refl _
  | listOp sc cat =>
    unfold TodoList.step TodoList.list_tasks
    dsimp only
    split <;> exact le_refl _

theorem run_next_id_mono (st : TodoList) (ops : List Op) :
    st.next_id ≤ (st.run ops).next_id := by
  induction ops generalizing st with
  | nil => exact le_refl _
  | cons op ops ih => exact le_trans (step_next_id_mono st op) (ih (st.step op))

theorem issued_ids_lt (st : TodoList) (ops : List Op) :
    ∀ i ∈ issued_ids st ops, i < (st.run ops).next_id := by
  induction ops generalizing st with
  | nil =>
    intro i hi
    simp [issued_ids] at hi
  | cons op ops ih =>
    intro i hi
    show i < ((st.step op).run ops).next_id
    cases op with
    | add a b c d e f =>
      simp only [issued_ids] at hi
      rcases List.mem_cons.mp hi with h | h
      · subst h
        have h1 : st.next_id < (st.step (Op.add a b c d e f)).next_id := by
          show st.next_id < st.next_id + 1
          omega
        exact lt_of_lt_of_le h1 (run_next_id_mono _ ops)
      · exact ih (st.step _) i h
    | remove j =>
      simp only [issued_ids] at hi
      exact ih (st.step _) i hi
    | markC j now =>
      simp only [issued_ids] at hi
      exact ih (st.step _) i hi
    | markI j =>
      simp only [issued_ids] at hi
      exact ih (st.step _) i hi
    | listOp sc cat =>
      simp only [issued_ids] at hi
      exact ih (st.step _) i hi

/-- Claim C5: after any sequence of operations on an instance, `add_task`
returns a task whose id is the current counter, and that counter is
strictly greater than every id the instance issued earlier, intervening
removals included. -/
theorem C5_ids_strictly_increase (st : TodoList) (ops : List Op)
    (title desc cat prio : String) (due : Option String) (now : String) :
    (((st.run ops).add_task title desc cat prio due now).2).id
      = some (st.run ops).next_id ∧
    ∀ i ∈ issued_ids st ops, i < (st.run ops).next_id :=
  ⟨rfl, issued_ids_lt st ops⟩

/-- Witness for `C5_ids_strictly_increase`: add a task (issuing id 1),
remove it, and the next add still gets the strictly larger id 2. -/
theorem C5_ids_strictly_increase_witness :
    (((empty_store.run [Op.add "a" "" "General" "Medium" none "t0", Op.remove 1]).add_task
        "b" "" "General" "Medium" none "t1").2).id
      = some (empty_store.run [Op.add "a" "" "General" "Medium" none "t0", Op.remove 1]).next_id ∧
    (1 : Int) < (empty_store.run [Op.add "a" "" "General" "Medium" none "t0", Op.remove 1]).next_id := by
  have h := C5_ids_strictly_increase empty_store
    [Op.add "a" "" "General" "Medium" none "t0", Op.remove 1] "b" "" "General" "Medium" none "t1"
  exact ⟨h.1, h.2 1 (by decide)⟩

theorem list_tasks_cases (st : TodoList) (sc : Bool) (cat : Option String) :
    ((sc && !(category_truthy cat)) = true ∧
      (st.list_tasks sc cat).1 =
        { st with tasks := List.insertionSort (fun a b => key_le a b = true) st.tasks } ∧
      (st.list_tasks sc cat).2 = List.insertionSort (fun a b => key_le a b = true) st.tasks) ∨
    ((sc && !(category_truthy cat)) = false ∧ (st.list_tasks sc cat).1 = st) := by
  rcases cat with _ | c
  · cases sc
    · exact Or.inr ⟨rfl, rfl⟩
    · exact Or.inl ⟨rfl, rfl, rfl⟩
  · by_cases he : c.isEmpty
    · cases sc
      · refine Or.inr ⟨rfl, rfl⟩
      · refine Or.inl ⟨by simp [category_truthy, he], ?_, ?_⟩ <;>
          · unfold TodoList.list_tasks
            simp [category_truthy, he]
    · have hct : category_truthy (some c) = true := by simp [category_truthy, he]
      refine Or.inr ⟨by simp [hct], ?_⟩
      unfold TodoList.list_tasks
      simp [hct]

/-- Claim C6 counterexample: calling `list_tasks(show_completed=True,
category=None)` on a store whose raw order is unsorted reorders the
store's own task list (the code sorts `self.tasks` in place), so the
store's collection does not stay unchanged. -/
theorem C6_counterexample :
    ((c6_store.list_tasks true none).1).tasks ≠ c6_store.tasks := by decide

/-- Claim C6 (amended): `list_tasks` preserves the store's task multiset
and counter always; it leaves the store entirely unchanged when
`show_completed` is false or a non-empty category is given (those calls
build a fresh filtered list); but when `show_completed` is true and no
category is given it sorts the store's own list in place, and the
returned sequence is that same stored list rather than an independent
snapshot. -/
theorem C6_list_tasks_frame (st : TodoList) (sc : Bool) (cat : Option String) :
    ((st.list_tasks sc cat).1).tasks.Perm st.tasks ∧
    ((st.list_tasks sc cat).1).next_id = st.next_id ∧
    (sc = false ∨ category_truthy cat = true → (st.list_tasks sc cat).1 = st) ∧
    (sc = true → category_truthy cat = false →
      ((st.list_tasks sc cat).1).tasks = (st.list_tasks sc cat).2) := by
  rcases list_tasks_cases st sc cat with ⟨hc, h1, h2⟩ | ⟨hc, h1⟩
  · refine ⟨?_, ?_, ?_, ?_⟩
    · rw [h1]
      exact List.perm_insertionSort _ _
    · rw [h1]
    · intro h
      rcases h with h | h <;> rw [h] at hc <;> simp at hc
    · intro _ _
      rw [h1, h2]
  · refine ⟨?_, ?_, ?_, ?_⟩
    · rw [h1]
    · rw [h1]
    · intro _
      exact h1
    · intro hsc hct
      rw [hsc, hct] at hc
      simp at hc

/-- Witness for `C6_list_tasks_frame`: a filtered call leaves the store
unchanged, and an unfiltered call returns the store's own (sorted) list. -/
theorem C6_list_tasks_frame_witness :
    (c6_store.list_tasks false none).1 = c6_store ∧
    ((c6_store.list_tasks true none).1).tasks = (c6_store.list_tasks true none).2 :=
  ⟨(C6_list_tasks_frame c6_store false none).2.2.1 (Or.inl rfl),
   (C6_list_tasks_frame c6_store true none).2.2.2 rfl rfl⟩

theorem mapM_from_to (l : List Task) (now : String) :
    (l.map Task.to_dict).mapM (fun r => Task.from_dict r now) = some l := by
  induction l with
  | nil => rfl
  | cons t ts ih =>
    have ht : Task.from_dict (Task.to_dict t) now = some t := rfl
    rw [List.map_cons, List.mapM_cons, ht, ih]
    rfl

theorem load_save (st : TodoList) (now : String) :
    TodoList.load st.save now = some st := by
  unfold TodoList.save TodoList.load
  simp only [Option.getD_some]
  rw [mapM_from_to]

theorem remove_aux_nodup_find (task_id : Int) (l : List Task) :
    ∀ ts, (l.map Task.id).Nodup → TodoList.remove_aux task_id l = some ts →
      ts.find? (fun t => t.id == some task_id) = none := by
  induction l with
  | nil =>
    intro ts _ h
    simp [TodoList.remove_aux] at h
  | cons a as ih =>
    intro ts hnd h
    unfold TodoList.remove_aux at h
    rw [List.map_cons, List.nodup_cons] at hnd
    by_cases ha : a.id = some task_id
    · rw [if_pos ha] at h
      injection h with h
      subst h
      rw [List.find?_eq_none]
      intro t ht hmatch
      have hti : t.id = some task_id := by simpa using hmatch
      have : a.id ∈ as.map Task.id := by
        rw [ha, ← hti]
        exact List.mem_map_of_mem Task.id ht
      exact hnd.1 this
    · rw [if_neg ha] at h
      rcases hr : TodoList.remove_aux task_id as with _ | ts2 <;> rw [hr] at h
      · cases h
      · injection h with h
        subst h
        rw [List.find?_cons_of_neg _ (by simp [ha])]
        exact ih ts2 hnd.2 hr

/-- Claim C8 counterexample: a crafted backing document loads a store
holding two tasks that share id 1; `remove_task 1` deletes only the
first and returns true, yet `get_task 1` still finds the second. -/
theorem C8_counterexample :
    TodoList.load c8_doc "t0" = some c8_store ∧
    (c8_store.remove_task 1).2 = true ∧
    ((c8_store.remove_task 1).1).get_task 1 ≠ none :=
  ⟨rfl, rfl, by decide⟩

/-- Claim C8 (amended): on a store whose task ids are pairwise distinct,
once `remove_task i` returns true, `get_task i` returns `none`, and a
fresh store loaded from the rewritten backing content (the removal is
persisted by a full rewrite before `remove_task` returns) also has no
task with id `i`. -/
theorem C8_remove_then_absent (st : TodoList) (i : Int) (now : String)
    (hnodup : (st.tasks.map Task.id).Nodup)
    (hrm : (st.remove_task i).2 = true) :
    ((st.remove_task i).1).get_task i = none ∧
    TodoList.load ((st.remove_task i).1).save now = some ((st.remove_task i).1) ∧
    (∀ st2, TodoList.load ((st.remove_task i).1).save now = some st2 →
      st2.get_task i = none) := by
  have hget : ((st.remove_task i).1).get_task i = none := by
    unfold TodoList.remove_task at *
    rcases hr : TodoList.remove_aux i st.tasks with _ | ts
    · rw [hr] at hrm
      exact absurd hrm Bool.false_ne_true
    · unfold TodoList.get_task
      exact remove_aux_nodup_find i st.tasks ts hnodup hr
  refine ⟨hget, load_save _ now, ?_⟩
  intro st2 h2
  rw [load_save] at h2
  injection h2 with h2
  subst h2
  exact hget

/-- Witness for `C8_remove_then_absent` on a store with ids 1 and 2. -/
theorem C8_remove_then_absent_witness :
    ((c8_good_store.remove_task 1).1).get_task 1 = none ∧
    TodoList.load ((c8_good_store.remove_task 1).1).save "t9" =
      some ((c8_good_store.remove_task 1).1) := by
  have h := C8_remove_then_absent c8_good_store 1 "t9" (by decide) (by decide)
  exact ⟨h.1, h.2.1⟩



theorem updateFirst_mem {task_id : Int} {f : Task → Task} {l : List Task} {t : Task}
    (ht : t ∈ (TodoList.updateFirst task_id f l).1) :
    t ∈ l ∨ ∃ s, s ∈ l ∧ t = f s := by
  induction l with
  | nil =>
    simp [TodoList.updateFirst] at ht
  | cons a as ih =>
    unfold TodoList.updateFirst at ht
    by_cases h : a.id = some task_id
    · rw [if_pos h] at ht
      dsimp at ht
      rcases List.mem_cons.mp ht with h1 | h1
      · exact Or.inr ⟨a, List.mem_cons_self a as, h1⟩
      · exact Or.inl (List.mem_cons_of_mem a h1)
    · rw [if_neg h] at ht
      dsimp at ht
      rcases List.mem_cons.mp ht with h1 | h1
      · exact Or.inl (h1 ▸ List.mem_cons_self a as)
      · rcases ih h1 with h2 | ⟨s, hs, hts⟩
        · exact Or.inl (List.mem_cons_of_mem a h2)
        · exact Or.inr ⟨s, List.mem_cons_of_mem a hs, hts⟩

theorem remove_aux_subset (task_id : Int) (l : List Task) :
    ∀ ts, TodoList.remove_aux task_id l = some ts → ∀ t ∈ ts, t ∈ l := by
  induction l with
  | nil =>
    intro ts h
    simp [TodoList.remove_aux] at h
  | cons a as ih =>
    intro ts h t ht
    unfold TodoList.remove_aux at h
    by_cases ha : a.id = some task_id
    · rw [if_pos ha] at h
      injection h with h
      subst h
      exact List.mem_cons_of_mem a ht
    · rw [if_neg ha] at h
      rcases hr : TodoList.remove_aux task_id as with _ | ts2 <;> rw [hr] at h
      · cases h
      · injection h with h
        subst h
        rcases List.mem_cons.mp ht with h1 | h1
        · exact h1 ▸ List.mem_cons_self a as
        · exact List.mem_cons_of_mem a (ih ts2 hr t h1)

/-- Claim C3 counterexample: a backing document that is valid JSON but
whose single task record is missing the required `title` field makes the
constructor raise (`KeyError` escapes `load_tasks`) instead of producing
the empty store the claim promises. -/
theorem C3_counterexample :
    TodoList.load (BackingContent.doc (some [blank_record]) none) "t0" = none := rfl

/-- Claim C3 (amended): a backing location that does not exist or whose
content fails to parse as JSON yields the empty store with `next_id = 1`
(malformed individual records, in contrast, make the constructor raise). -/
theorem C3_load_error_recovery (c : BackingContent) (now : String)
    (h : c = BackingContent.missing ∨ c = BackingContent.unparseable) :
    TodoList.load c now = some empty_store := by
  rcases h with h | h <;> subst h <;> rfl

/-- Witness for `C3_load_error_recovery` at the missing-file input. -/
theorem C3_load_error_recovery_witness :
    TodoList.load BackingContent.missing "t0" = some empty_store :=
  C3_load_error_recovery BackingContent.missing "t0" (Or.inl rfl)

/-- Claim C4 counterexample: deserializing a record with `completed =
true` but no `completed_at` key yields a task with `completed = true`
and `completed_at` absent, so the claimed biconditional fails after
`from_dict`. -/
theorem C4_counterexample :
    Task.from_dict c4_record "t0" = some c4_task ∧
    c4_task.completed = true ∧ c4_task.completed_at = none :=
  ⟨rfl, rfl, rfl⟩

/-- Claim C4 (amended): the biconditional `completed_at ≠ none ↔
completed` holds for a freshly constructed task, for the result of
`mark_complete` and `mark_incomplete`, and is preserved by the
store operations `add_task`, `mark_complete`, `mark_incomplete` and
`remove_task`; deserialization, however, copies the two fields
independently and does not enforce it. -/
theorem C4_completion_invariant_ops (st : TodoList)
    (hst : ∀ t ∈ st.tasks, completion_invariant t)
    (title desc cat prio : String) (due : Option String) (now : String) (i : Int) :
    completion_invariant (Task.make title desc cat prio due now) ∧
    (∀ t : Task, completion_invariant (t.mark_complete now)) ∧
    (∀ t : Task, completion_invariant t.mark_incomplete) ∧
    (∀ t ∈ ((st.add_task title desc cat prio due now).1).tasks, completion_invariant t) ∧
    (∀ t ∈ ((st.mark_complete i now).1).tasks, completion_invariant t) ∧
    (∀ t ∈ ((st.mark_incomplete i).1).tasks, completion_invariant t) ∧
    (∀ t ∈ ((st.remove_task i).1).tasks, completion_invariant t) := by
  refine ⟨?_, ?_, ?_, ?_, ?_, ?_, ?_⟩
  · simp [completion_invariant, Task.make]
  · intro t
    simp [completion_invariant, Task.mark_complete]
  · intro t
    simp [completion_invariant, Task.mark_incomplete]
  · intro t ht
    unfold TodoList.add_task at ht
    dsimp at ht
    rcases List.mem_append.mp ht with h | h
    · exact hst t h
    · have h2 := List.mem_singleton.mp h
      subst h2
      simp [completion_invariant, Task.make]
  · intro t ht
    unfold TodoList.mark_complete at ht
    dsimp at ht
    rcases updateFirst_mem ht with h | ⟨s, hs, hts⟩
    · exact hst t h
    · subst hts
      simp [completion_invariant, Task.mark_complete]
  · intro t ht
    unfold TodoList.mark_incomplete at ht
    dsimp at ht
    rcases updateFirst_mem ht with h | ⟨s, hs, hts⟩
    · exact hst t h
    · subst hts
      simp [completion_invariant, Task.mark_incomplete]
  · intro t ht
    unfold TodoList.remove_task at ht
    rcases hr : TodoList.remove_aux i st.tasks with _ | ts <;> rw [hr] at ht <;> dsimp at ht
    · exact hst t ht
    · exact hst t (remove_aux_subset i st.tasks ts hr t ht)

/-- Witness for `C4_completion_invariant_ops` on the empty store. -/
theorem C4_completion_invariant_ops_witness :
    completion_invariant (Task.make "a" "" "General" "Medium" none "t0") :=
  (C4_completion_invariant_ops empty_store (fun t ht => by simp [empty_store] at ht) "a" "" "General" "Medium" none "t0" 1).1

/-- Claim C7 counterexample: constructing a task (directly or through
`add_task`) with the unrecognized priority string `"Urgent"` stores
`"Urgent"` verbatim, not `"Medium"` as the claim states. -/
theorem C7_counterexample :
    (Task.make "Buy milk" "" "General" "Urgent" none "t0").priority = "Urgent" ∧
    ((empty_store.add_task "Buy milk" "" "General" "Urgent" none "t0").2).priority = "Urgent" ∧
    (Task.make "Buy milk" "" "General" "Urgent" none "t0").priority ≠ "Medium" :=
  ⟨rfl, rfl, by decide⟩

/-- Claim C7 (amended): construction and `add_task` keep the given
priority string unchanged and never reject it; an unrecognized priority
is only *ranked* as Medium (by `priority_order.get(p, 1)` during
sorting), and the interactive shell, not the core, replaces unrecognized
input by `"Medium"` before calling `add_task`. -/
theorem C7_priority_stored_verbatim (title desc cat prio : String)
    (due : Option String) (now : String) (st : TodoList)
    (h1 : prio ≠ "High") (h2 : prio ≠ "Medium") (h3 : prio ≠ "Low") :
    (Task.make title desc cat prio due now).priority = prio ∧
    ((st.add_task title desc cat prio due now).2).priority = prio ∧
    priority_rank prio = priority_rank "Medium" := by
  refine ⟨rfl, rfl, ?_⟩
  simp [priority_rank, h1, h2, h3]

/-- Witness for `C7_priority_stored_verbatim` at priority `"Urgent"`. -/
theorem C7_priority_stored_verbatim_witness :
    (Task.make "a" "" "General" "Urgent" none "t0").priority = "Urgent" ∧
    ((empty_store.add_task "a" "" "General" "Urgent" none "t0").2).priority = "Urgent" ∧
    priority_rank "Urgent" = priority_rank "Medium" :=
  C7_priority_stored_verbatim "a" "" "General" "Urgent" none "t0" empty_store
    (by decide) (by decide) (by decide)

/-- Claim C10: loading a document that has a `"tasks"` array but no
`"next_id"` key sets `next_id = 1` regardless of the loaded ids (the
store never recomputes the counter from the tasks), so the next
`add_task` issues id 1 — which collides whenever some loaded task
already has id 1. -/
theorem C10_missing_next_id (records : List TaskRecord) (now now2 : String)
    (st : TodoList) (title desc cat prio : String) (due : Option String)
    (h : TodoList.load (BackingContent.doc (some records) none) now = some st) :
    st.next_id = 1 ∧
    ((st.add_task title desc cat prio due now2).2).id = some 1 ∧
    (some (1 : Int) ∈ st.tasks.map Task.id →
      ((st.add_task title desc cat prio due now2).2).id ∈ st.tasks.map Task.id) := by
  have hnext : st.next_id = 1 := by
    unfold TodoList.load at h
    simp only [Option.getD_some] at h
    rcases hm : records.mapM (fun r => Task.from_dict r now) with _ | ts <;> rw [hm] at h
    · cases h
    · injection h with h
      subst h
      rfl
  have hid : ((st.add_task title desc cat prio due now2).2).id = some 1 := by
    show some st.next_id = some 1
    rw [hnext]
  refine ⟨hnext, hid, ?_⟩
  intro hmem
  rw [hid]
  exact hmem

/-- Witness for `C10_missing_next_id`: a document whose only task has
id 1 and which lacks `next_id` loads with the counter at 1, and the next
`add_task` hands out id 1 again, colliding with the loaded task. -/
theorem C10_missing_next_id_witness :
    c10_store.next_id = 1 ∧
    ((c10_store.add_task "b" "" "General" "Medium" none "t1").2).id ∈
      c10_store.tasks.map Task.id := by
  have h := C10_missing_next_id [c10_record] "t0" "t1" c10_store "b" "" "General" "Medium" none rfl
  exact ⟨h.1, h.2.2 (by decide)⟩


end Todo
